import Mathlib

/-!
Shallow embedding of the `datasus_gcp` ETL job (src/main.py,
src/classes/cloud/GoogleCloud.py, src/classes/controller/SIHController.py).

External SDK calls (Google Cloud clients, pandas_gbq, pysus, the
filesystem) are modelled as oracles: records of total functions whose
`Except`-valued fields say whether the corresponding call raises.  Each
method is embedded as a function from its inputs and oracles to its
observable outcome: the new object state, a trace of effects (log lines,
issued queries, uploads, deletions), and — where the real method can let
an exception escape — an `Except` error channel.
-/

namespace DatasusGcp

/-- An opaque credential handle (`google.oauth2.service_account.Credentials`). -/
abbrev Cred := String

/-- Observable effects of a method run: log lines and external operations. -/
inductive Effect where
  | logInfo (msg : String) : Effect
  | logWarning (msg : String) : Effect
  | logError (msg : String) : Effect
  /-- `pandas_gbq.read_gbq(q)` — used to issue the DELETE query. -/
  | runQuery (q : String) : Effect
  /-- `pandas_gbq.to_gbq(df, destination_table, project_id, if_exists)`. -/
  | toGbq (destination_table project_id if_exists : String) (nrows ncols : Nat) : Effect
  /-- `blob.upload_from_filename` keyed by the blob name. -/
  | uploadBlob (name : String) : Effect
  /-- `os.remove(path)`. -/
  | removeLocal (path : String) : Effect
  deriving Repr, DecidableEq

/-- A row of a pandas DataFrame, modelled as an association list from
column name to (string) cell value — the orchestrator coerces every
column to `str` before loading. -/
abbrev Row := List (String × String)

/-- A pandas DataFrame, modelled by its list of rows. -/
structure DataFrame where
  rows : List Row
  deriving Repr, DecidableEq

/-- The empty DataFrame (`pd.DataFrame()`). -/
def DataFrame.empty : DataFrame := ⟨[]⟩

/-- `df[c]` on a frame whose schema contains `c`: the column series of
`c`, one value per row.  This schema-less model is adequate only on that
domain — pandas raises `KeyError` for a column absent from the frame's
schema, a path this model cannot represent; `SchemaDF.colSeries` below
refines it with the schema and the `KeyError` outcome. -/
def DataFrame.col (df : DataFrame) (c : String) : List String :=
  df.rows.map (fun r => (r.lookup c).getD "")

/-- `df.shape[0]`. -/
def DataFrame.nrows (df : DataFrame) : Nat := df.rows.length

/-- `df.shape[1]`, read off the first row. -/
def DataFrame.ncols (df : DataFrame) : Nat := (df.rows.headD []).length

/-- `pandas.Series.unique()`: the distinct values of a series in order of
first occurrence. -/
def uniqueVals (l : List String) : List String :=
  l.foldl (fun acc v => if v ∈ acc then acc else acc ++ [v]) []

/-- Wrap a value in single quotes, as the f-string `f"'{value}'"` does. -/
def sq (v : String) : String := "\x27" ++ v ++ "\x27"

/-- The per-column condition `f"{col} IN ({', '.join([f"'{v}'" for v in df[col].unique()])})"`. -/
def inCondition (col : String) (vals : List String) : String :=
  col ++ " IN (" ++ String.intercalate ", " (vals.map sq) ++ ")"

/-- `delete_conditions` from `insert_dataframe_into_bigquery`: the
`" AND ".join` of the per-partition-column IN conditions. -/
def deleteConditions (df : DataFrame) (partition_columns : List String) : String :=
  String.intercalate " AND "
    (partition_columns.map (fun c => inCondition c (uniqueVals (df.col c))))

/-- `delete_query`: `f"DELETE FROM `{gcp_project}.{table_id}` WHERE {delete_conditions}"`. -/
def deleteQuery (df : DataFrame) (partition_columns : List String)
    (gcp_project table_id : String) : String :=
  "DELETE FROM \x60" ++ gcp_project ++ "." ++ table_id ++ "\x60 WHERE " ++
    deleteConditions df partition_columns

/-- Split a character list at every dot, keeping empty segments, as
Python's `str.split(".")` does. -/
def splitDotChars : List Char → List (List Char)
  | [] => [[]]
  | c :: cs =>
    let r := splitDotChars cs
    if c = '.' then [] :: r
    else
      match r with
      | [] => [[c]]
      | t :: ts => (c :: t) :: ts

/-- `table_id.split(".")`. -/
def pySplitDot (s : String) : List String :=
  (splitDotChars s.data).map (fun cs => ⟨cs⟩)

/-- The mutable state of a `GoogleCloud` instance: its `self.credentials`. -/
structure GoogleCloud where
  credentials : Option Cred
  deriving Repr, DecidableEq

/-- Oracle for `GoogleCloud.authenticate`: whether `os.path.exists(sa_json)`
holds, and the outcomes of `from_service_account_file` and of
`json.loads` + `from_service_account_info`. -/
structure AuthOracle where
  pathExists : Bool
  fromServiceAccountFile : Except String Cred
  parseAndFromInfo : Except String Cred

/-- `GoogleCloud.authenticate(sa_json)`: on success stores and returns the
credentials; on any exception logs the error, stores `None`, returns `None`.
Never lets an exception escape (the whole body is inside `try/except`). -/
def GoogleCloud.authenticate (g : GoogleCloud) (o : AuthOracle) :
    GoogleCloud × Option Cred × List Effect :=
  if o.pathExists then
    match o.fromServiceAccountFile with
    | .ok c =>
        ({ g with credentials := some c }, some c,
         [.logInfo "Authentication successful using service account file."])
    | .error e =>
        ({ g with credentials := none }, none,
         [.logError ("Authentication error: " ++ e)])
  else
    match o.parseAndFromInfo with
    | .ok c =>
        ({ g with credentials := some c }, some c,
         [.logInfo "Authentication successful using service account JSON content."])
    | .error e =>
        ({ g with credentials := none }, none,
         [.logError ("Authentication error: " ++ e)])

/-- Oracle for `insert_dataframe_into_bigquery`'s external calls:
`bigquery.Client(...)` construction, `client.get_table(table_ref)`,
`pandas_gbq.read_gbq(delete_query)` and `pandas_gbq.to_gbq(...)`. -/
structure BQOracle where
  clientInit : Except String Unit
  getTable : Except String Unit
  runDelete : Except String Unit
  runInsert : Except String Unit

/-- The tail of `insert_dataframe_into_bigquery` after the optional delete:
log, `pandas_gbq.to_gbq`, success log.  `effs` are the effects accumulated
so far; the `Option String` is an exception escaping the body. -/
def insertStep (g1 : GoogleCloud) (effs : List Effect) (df : DataFrame)
    (table_id gcp_project if_exists : String) (o : BQOracle) :
    GoogleCloud × List Effect × Option String :=
  let insLog := Effect.logInfo ("Inserting data into " ++ gcp_project ++ "." ++ table_id ++ ".")
  match o.runInsert with
  | .error e => (g1, effs ++ [insLog], some e)
  | .ok _ =>
      (g1,
       effs ++ [insLog,
         .toGbq table_id gcp_project if_exists df.nrows df.ncols,
         .logInfo ("Inserted data into " ++ gcp_project ++ "." ++ table_id ++
           " successfully. Rows: " ++ toString df.nrows ++
           ", Columns: " ++ toString df.ncols ++ ".")],
       none)

/-- The body of the outer `try:` of `insert_dataframe_into_bigquery`:
authenticate (never raises), build the client, split `table_id` (raises
`IndexError` when it has no dot), probe the table inside an inner bare
`except` (a lookup failure only sets `table_exists = False`), optionally
build and issue the partition-delete, then insert.  The `Option String`
component is an exception escaping to the outer handler. -/
def insertBody (g : GoogleCloud) (df : DataFrame) (table_id : String)
    (partition_columns : List String) (gcp_project if_exists : String)
    (aO : AuthOracle) (o : BQOracle) :
    GoogleCloud × List Effect × Option String :=
  let a := g.authenticate aO
  let g1 := a.1
  let authEffs := a.2.2
  match o.clientInit with
  | .error e => (g1, authEffs, some e)
  | .ok _ =>
    if (pySplitDot table_id).length < 2 then
      (g1, authEffs, some "IndexError: list index out of range")
    else
      let tableEffs :=
        match o.getTable with
        | .ok _ => [Effect.logInfo ("Table \x60" ++ table_id ++ "\x60 exists.")]
        | .error _ =>
            [Effect.logInfo ("Table \x60" ++ table_id ++ "\x60 does not exist. It will be created.")]
      let table_exists : Bool := match o.getTable with | .ok _ => true | .error _ => false
      if table_exists && !partition_columns.isEmpty then
        let conds := deleteConditions df partition_columns
        let q := deleteQuery df partition_columns gcp_project table_id
        let delLog := Effect.logInfo ("Deleting existing data from " ++ gcp_project ++ "." ++
          table_id ++ " for partitions: " ++ conds ++ ".")
        match o.runDelete with
        | .error e => (g1, authEffs ++ tableEffs ++ [delLog], some e)
        | .ok _ =>
            insertStep g1 (authEffs ++ tableEffs ++ [delLog, .runQuery q])
              df table_id gcp_project if_exists o
      else
        insertStep g1 (authEffs ++ tableEffs) df table_id gcp_project if_exists o

/-- `GoogleCloud.insert_dataframe_into_bigquery`: runs the body inside
`try/except Exception`, logging any escaped exception; the method itself
always returns `None` — its `Except` channel (what the caller sees) is
`.ok ()` whenever the outer handler fires. -/
def insert_dataframe_into_bigquery (g : GoogleCloud) (df : DataFrame)
    (table_id sa_json : String) (partition_columns : List String)
    (gcp_project : String) (if_exists : String)
    (aO : AuthOracle) (o : BQOracle) :
    GoogleCloud × List Effect × Except String Unit :=
  let b := insertBody g df table_id partition_columns gcp_project if_exists aO o
  match b.2.2 with
  | none => (b.1, b.2.1, Except.ok ())
  | some e =>
      (b.1, b.2.1 ++ [.logError ("Error inserting data into BigQuery: " ++ e)], Except.ok ())

/-- Oracle for `SIHController.request_RD_report_dataframe_format`:
`SIH().load()` (outside any `try`, so its exceptions escape),
`sih.get_files("RD", uf, year, month)`, and the per-file
`sih.download([file]).to_dataframe()` combined step; `concatOk` says
whether `pd.concat(dataframes, ignore_index=True)` succeeds. -/
structure FetchOracle where
  load : Except String Unit
  getFiles : Except String (List String)
  download : String → Except String (List Row)
  concatOk : Bool

/-- The per-file loop of `request_RD_report_dataframe_format`: each file is
logged, downloaded and decoded; a failure is logged and the file skipped.
Accumulates the list of decoded row-sets and the effect trace. -/
def fetchStep (o : FetchOracle) (acc : List (List Row) × List Effect) (f : String) :
    List (List Row) × List Effect :=
  match o.download f with
  | .ok rs =>
      (acc.1 ++ [rs],
       acc.2 ++ [.logInfo ("Processing file: " ++ f), .logInfo ("Successfully processed " ++ f)])
  | .error e =>
      (acc.1,
       acc.2 ++ [.logInfo ("Processing file: " ++ f),
         .logError ("Error reading " ++ f ++ ": " ++ e)])

/-- `SIHController.request_RD_report_dataframe_format(uf, year, month)`:
loads the SIH index (uncaught on failure), lists matching files (empty
DataFrame on error or no files), downloads each (failures skipped), and
concatenates the successes (empty DataFrame when none, or when the concat
itself fails). -/
def request_RD_report_dataframe_format (o : FetchOracle) :
    Except String (DataFrame × List Effect) :=
  match o.load with
  | .error e => .error e
  | .ok _ =>
    match o.getFiles with
    | .error e =>
        .ok (DataFrame.empty, [.logError ("Error fetching file list for RD reports: " ++ e)])
    | .ok files =>
      if files.isEmpty then
        .ok (DataFrame.empty, [.logWarning "No files found for the specified parameters."])
      else
        let r := files.foldl (fetchStep o) ([], [])
        if r.1.isEmpty then
          .ok (DataFrame.empty, r.2 ++ [.logWarning "No DataFrames were successfully processed."])
        else
          if o.concatOk then
            .ok (⟨r.1.flatten⟩, r.2 ++ [.logInfo "Successfully combined all DataFrames."])
          else
            .ok (DataFrame.empty, r.2 ++ [.logError "Error combining DataFrames."])

/-- The row-sets of the files whose download-and-decode step succeeds,
in file order. -/
def successRows (o : FetchOracle) (files : List String) : List (List Row) :=
  files.filterMap (fun f => match o.download f with | .ok rs => some rs | .error _ => none)

/-- Oracle for `save_local_files_in_storage`: `storage.Client(...)`
construction, `os.path.exists` on each local path, `blob.upload_from_filename`
and `os.remove`. -/
structure StorageOracle where
  clientInit : Except String Unit
  pathExistsAt : String → Bool
  upload : String → Except String Unit
  removeFile : String → Except String Unit

/-- `os.path.join(source_directory, filename)` (directory without a
trailing separator). -/
def pathJoin (d f : String) : String := d ++ "/" ++ f

/-- The `for filename in filenames:` loop of `save_local_files_in_storage`:
a missing local path is logged and skipped; otherwise the file is uploaded
(an upload exception aborts the loop, escaping to the outer handler) and a
best-effort `os.remove` follows inside its own `try/except`. -/
def uploadLoop (o : StorageOracle) (source_directory bucket_name : String) :
    List String → List Effect × Option String
  | [] => ([], none)
  | filename :: rest =>
    let local_path := pathJoin source_directory filename
    if o.pathExistsAt local_path = false then
      let r := uploadLoop o source_directory bucket_name rest
      (Effect.logError ("File " ++ local_path ++ " does not exist. Skipping.") :: r.1, r.2)
    else
      match o.upload local_path with
      | .error e => ([], some e)
      | .ok _ =>
        let upEffs := [Effect.uploadBlob filename,
          Effect.logInfo ("Uploaded " ++ filename ++ " to bucket " ++ bucket_name ++ ".")]
        match o.removeFile local_path with
        | .ok _ =>
          let r := uploadLoop o source_directory bucket_name rest
          (upEffs ++ [Effect.removeLocal local_path,
            Effect.logInfo ("Removed local file " ++ filename ++ " in " ++ local_path ++ ".")] ++
            r.1, r.2)
        | .error e =>
          let r := uploadLoop o source_directory bucket_name rest
          (upEffs ++ [Effect.logError ("Failed to remove local file " ++ filename ++
            " in " ++ local_path ++ ": " ++ e)] ++ r.1, r.2)

/-- `GoogleCloud.save_local_files_in_storage(filenames, source_directory,
bucket_name, sa_json)`: authenticate (aborting with a log when the
credential is absent), build the client, run the upload loop; any escaped
exception is caught at the top and logged. -/
def save_local_files_in_storage (g : GoogleCloud) (filenames : List String)
    (source_directory bucket_name : String)
    (aO : AuthOracle) (o : StorageOracle) : GoogleCloud × List Effect :=
  let a := g.authenticate aO
  let g1 := a.1
  let authEffs := a.2.2
  match a.2.1 with
  | none => (g1, authEffs ++ [.logError "Failed to authenticate. Cannot proceed."])
  | some _ =>
    match o.clientInit with
    | .error e => (g1, authEffs ++ [.logError ("Error uploading files: " ++ e)])
    | .ok _ =>
      let r := uploadLoop o source_directory bucket_name filenames
      match r.2 with
      | none => (g1, authEffs ++ r.1)
      | some e => (g1, authEffs ++ r.1 ++ [.logError ("Error uploading files: " ++ e)])

/-- A calendar instant, as far as `main` observes it: `datetime.now()`
restricted to its year and month (1–12). -/
structure SimpleDate where
  year : Nat
  month : Nat
  deriving Repr, DecidableEq

/-- `datetime.now() - relativedelta(months=1)`, at year/month granularity:
January steps to December of the previous year. -/
def minusOneMonth (d : SimpleDate) : SimpleDate :=
  if d.month = 1 then ⟨d.year - 1, 12⟩ else ⟨d.year, d.month - 1⟩

/-- Two-digit zero-padded rendering, as `strftime` produces for `%y`/`%m`. -/
def pad2 (n : Nat) : String :=
  if n < 10 then "0" ++ toString n else toString n

/-- `strftime("%y")`: the year modulo 100, two digits. -/
def fmtYY (d : SimpleDate) : String := pad2 (d.year % 100)

/-- `strftime("%m")`: the month, two digits. -/
def fmtMM (d : SimpleDate) : String := pad2 d.month

/-- `main`'s year default: `if not year or year == [""]:` replaces the
input with `[datetime.now().strftime("%y")]` — the current year. -/
def resolveYear (year : Option (List String)) (now : SimpleDate) : List String :=
  match year with
  | none => [fmtYY now]
  | some y => if y = [] ∨ y = [""] then [fmtYY now] else y

/-- `main`'s month default: `if not month or month == [""]:` replaces the
input with `[(datetime.now() - relativedelta(months=1)).strftime("%m")]`
— the previous calendar month, two digits. -/
def resolveMonth (month : Option (List String)) (now : SimpleDate) : List String :=
  match month with
  | none => [fmtMM (minusOneMonth now)]
  | some m => if m = [] ∨ m = [""] then [fmtMM (minusOneMonth now)] else m

/-- A pandas DataFrame together with its column schema.  Refines
`DataFrame` where the `KeyError` path of `df[col]` must be representable:
the fetcher's documented empty outcome is `pd.DataFrame()` with no
columns, to which `main` adds only `insert_loading`. -/
structure SchemaDF where
  cols : List String
  rows : List Row
  deriving Repr, DecidableEq

/-- `df[c]` with pandas semantics: the column series when `c` is in the
frame's schema, `KeyError` otherwise. -/
def SchemaDF.colSeries (df : SchemaDF) (c : String) : Except String (List String) :=
  if c ∈ df.cols then .ok (df.rows.map (fun r => (r.lookup c).getD ""))
  else .error ("KeyError: " ++ c)

/-- `df.shape[0]`. -/
def SchemaDF.nrows (df : SchemaDF) : Nat := df.rows.length

/-- `df.shape[1]`. -/
def SchemaDF.ncols (df : SchemaDF) : Nat := df.cols.length

/-- The list comprehension building the per-column IN conditions,
evaluated left to right: the first partition column absent from the
frame's schema raises `KeyError` before any later column is read. -/
def inConditionList (df : SchemaDF) : List String → Except String (List String)
  | [] => .ok []
  | c :: cs =>
    match df.colSeries c with
    | .error e => .error e
    | .ok vals =>
      match inConditionList df cs with
      | .error e => .error e
      | .ok rest => .ok (inCondition c (uniqueVals vals) :: rest)

/-- `delete_conditions` over the schema-aware frame: the `" AND ".join`
of the comprehension, or the `KeyError` it raises. -/
def deleteConditionsSchema (df : SchemaDF) (partition_columns : List String) :
    Except String String :=
  match inConditionList df partition_columns with
  | .error e => .error e
  | .ok cs => .ok (String.intercalate " AND " cs)

/-- `delete_query` built from an already-computed conditions string. -/
def deleteQuerySchema (conds gcp_project table_id : String) : String :=
  "DELETE FROM \x60" ++ gcp_project ++ "." ++ table_id ++ "\x60 WHERE " ++ conds

/-- `insertStep` over the schema-aware frame. -/
def insertStepSchema (g1 : GoogleCloud) (effs : List Effect) (df : SchemaDF)
    (table_id gcp_project if_exists : String) (o : BQOracle) :
    GoogleCloud × List Effect × Option String :=
  let insLog := Effect.logInfo ("Inserting data into " ++ gcp_project ++ "." ++ table_id ++ ".")
  match o.runInsert with
  | .error e => (g1, effs ++ [insLog], some e)
  | .ok _ =>
      (g1,
       effs ++ [insLog,
         .toGbq table_id gcp_project if_exists df.nrows df.ncols,
         .logInfo ("Inserted data into " ++ gcp_project ++ "." ++ table_id ++
           " successfully. Rows: " ++ toString df.nrows ++
           ", Columns: " ++ toString df.ncols ++ ".")],
       none)

/-- `insertBody` over the schema-aware frame: identical control flow, but
building the delete conditions is itself a raise point — a `KeyError`
there escapes to the outer handler before any DELETE is logged or
issued. -/
def insertBodySchema (g : GoogleCloud) (df : SchemaDF) (table_id : String)
    (partition_columns : List String) (gcp_project if_exists : String)
    (aO : AuthOracle) (o : BQOracle) :
    GoogleCloud × List Effect × Option String :=
  let a := g.authenticate aO
  let g1 := a.1
  let authEffs := a.2.2
  match o.clientInit with
  | .error e => (g1, authEffs, some e)
  | .ok _ =>
    if (pySplitDot table_id).length < 2 then
      (g1, authEffs, some "IndexError: list index out of range")
    else
      let tableEffs :=
        match o.getTable with
        | .ok _ => [Effect.logInfo ("Table \x60" ++ table_id ++ "\x60 exists.")]
        | .error _ =>
            [Effect.logInfo ("Table \x60" ++ table_id ++ "\x60 does not exist. It will be created.")]
      let table_exists : Bool := match o.getTable with | .ok _ => true | .error _ => false
      if table_exists && !partition_columns.isEmpty then
        match deleteConditionsSchema df partition_columns with
        | .error e => (g1, authEffs ++ tableEffs, some e)
        | .ok conds =>
          let q := deleteQuerySchema conds gcp_project table_id
          let delLog := Effect.logInfo ("Deleting existing data from " ++ gcp_project ++ "." ++
            table_id ++ " for partitions: " ++ conds ++ ".")
          match o.runDelete with
          | .error e => (g1, authEffs ++ tableEffs ++ [delLog], some e)
          | .ok _ =>
              insertStepSchema g1 (authEffs ++ tableEffs ++ [delLog, .runQuery q])
                df table_id gcp_project if_exists o
      else
        insertStepSchema g1 (authEffs ++ tableEffs) df table_id gcp_project if_exists o

/-- `insert_dataframe_into_bigquery` over the schema-aware frame, with the
same outer `try/except`. -/
def insert_dataframe_into_bigquery_schema (g : GoogleCloud) (df : SchemaDF)
    (table_id sa_json : String) (partition_columns : List String)
    (gcp_project : String) (if_exists : String)
    (aO : AuthOracle) (o : BQOracle) :
    GoogleCloud × List Effect × Except String Unit :=
  let b := insertBodySchema g df table_id partition_columns gcp_project if_exists aO o
  match b.2.2 with
  | none => (b.1, b.2.1, Except.ok ())
  | some e =>
      (b.1, b.2.1 ++ [.logError ("Error inserting data into BigQuery: " ++ e)], Except.ok ())

/-! Theorems. -/

/-- C9: after every call to `authenticate`, the instance field
`self.credentials` equals the value the call returned — the new credential
on success, `none` on any error — so a stale credential from an earlier
successful call never survives a later failed call. -/
theorem authenticate_sets_credentials_field (g : GoogleCloud) (o : AuthOracle) :
    (g.authenticate o).1.credentials = (g.authenticate o).2.1 := by
  cases hp : o.pathExists with
  | false => cases hf : o.parseAndFromInfo <;> simp [GoogleCloud.authenticate, hp, hf]
  | true => cases hf : o.fromServiceAccountFile <;> simp [GoogleCloud.authenticate, hp, hf]

/-- C7: when loading the credential file (existing path) or parsing the
embedded JSON content (non-path input) raises, `authenticate` does not
propagate the exception: it logs the error and returns an absent
credential (`none`). -/
theorem authenticate_soft_fail (g : GoogleCloud) (o : AuthOracle) (e : String)
    (h : (o.pathExists = true ∧ o.fromServiceAccountFile = .error e) ∨
         (o.pathExists = false ∧ o.parseAndFromInfo = .error e)) :
    (g.authenticate o).2.1 = none ∧
    (g.authenticate o).2.2 = [.logError ("Authentication error: " ++ e)] := by
  rcases h with ⟨hp, hf⟩ | ⟨hp, hf⟩ <;> simp [GoogleCloud.authenticate, hp, hf]

/-- C7 witness: a concrete oracle whose file load raises. -/
theorem authenticate_soft_fail_witness :
    (GoogleCloud.authenticate ⟨some "old"⟩
      ⟨true, .error "bad json", .ok "c"⟩).2.1 = none ∧
    (GoogleCloud.authenticate ⟨some "old"⟩
      ⟨true, .error "bad json", .ok "c"⟩).2.2 =
        [.logError ("Authentication error: " ++ "bad json")] :=
  authenticate_soft_fail ⟨some "old"⟩ ⟨true, .error "bad json", .ok "c"⟩
    "bad json" (Or.inl ⟨rfl, rfl⟩)

/-- C6 counterexample: in January 2026 with `year` and `month` both
defaulted, `main` resolves the year to the current year "26" and the
month to "12" — that is December of the current year, not December of the
previous year ("25") as the claim states. -/
theorem resolve_january_not_previous_year :
    resolveYear none ⟨2026, 1⟩ = ["26"] ∧
    resolveMonth none ⟨2026, 1⟩ = ["12"] ∧
    resolveYear none ⟨2026, 1⟩ ≠ ["25"] := by
  refine ⟨rfl, rfl, ?_⟩
  decide

/-- C6 amended: for every missing or empty `month` input the resolved
month is the two-digit zero-padded previous calendar month — `"12"` in
January, `pad2 (m - 1)` otherwise — but the defaulted year stays the
current year, so a January invocation with both inputs defaulted resolves
to December of the current year, not of the previous year. -/
theorem resolveMonth_default_previous_month
    (mo yo : Option (List String)) (now : SimpleDate)
    (hm : mo = none ∨ mo = some [] ∨ mo = some [""])
    (hy : yo = none ∨ yo = some [] ∨ yo = some [""]) :
    resolveMonth mo now = [fmtMM (minusOneMonth now)] ∧
    resolveYear yo now = [fmtYY now] ∧
    (now.month = 1 → resolveMonth mo now = ["12"]) ∧
    (2 ≤ now.month → resolveMonth mo now = [pad2 (now.month - 1)]) := by
  have hmm : resolveMonth mo now = [fmtMM (minusOneMonth now)] := by
    rcases hm with h | h | h <;> simp [resolveMonth, h]
  have hyy : resolveYear yo now = [fmtYY now] := by
    rcases hy with h | h | h <;> simp [resolveYear, h]
  refine ⟨hmm, hyy, ?_, ?_⟩
  · intro h1
    rw [hmm]
    simp [minusOneMonth, fmtMM, h1]
    rfl
  · intro h2
    rw [hmm]
    have hne : now.month ≠ 1 := by omega
    simp [minusOneMonth, fmtMM, hne]

/-- C6 witness: concrete March 2026 invocation with both inputs missing. -/
theorem resolveMonth_default_previous_month_witness :
    resolveMonth none ⟨2026, 3⟩ = [fmtMM (minusOneMonth ⟨2026, 3⟩)] ∧
    resolveYear none ⟨2026, 3⟩ = [fmtYY ⟨2026, 3⟩] ∧
    ((⟨2026, 3⟩ : SimpleDate).month = 1 → resolveMonth none ⟨2026, 3⟩ = ["12"]) ∧
    (2 ≤ (⟨2026, 3⟩ : SimpleDate).month → resolveMonth none ⟨2026, 3⟩ = [pad2 (3 - 1)]) :=
  resolveMonth_default_previous_month none none ⟨2026, 3⟩ (Or.inl rfl) (Or.inl rfl)

/-- The download loop accumulates exactly the successful row-sets. -/
theorem fetchStep_fold_fst (o : FetchOracle) (files : List String)
    (dfs : List (List Row)) (effs : List Effect) :
    (files.foldl (fetchStep o) (dfs, effs)).1 = dfs ++ successRows o files := by
  induction files generalizing dfs effs with
  | nil => simp [successRows]
  | cons f rest ih =>
    cases hd : o.download f <;>
      simp [fetchStep, hd, ih, successRows, List.filterMap_cons]

/-- C4: when the file listing raises, or matches zero files, or every
matching file fails to download or decode, `request_RD_report_dataframe_format`
returns the empty dataset and lets no exception escape. -/
theorem fetch_empty_on_failures (o : FetchOracle)
    (hload : o.load = .ok ())
    (h : (∃ e, o.getFiles = .error e) ∨ o.getFiles = .ok [] ∨
         (∃ files, o.getFiles = .ok files ∧
            ∀ f ∈ files, ∃ err, o.download f = .error err)) :
    ∃ effs, request_RD_report_dataframe_format o = .ok (DataFrame.empty, effs) := by
  rcases h with ⟨e, hg⟩ | hg | ⟨files, hg, hall⟩
  · exact ⟨[.logError ("Error fetching file list for RD reports: " ++ e)],
      by simp [request_RD_report_dataframe_format, hload, hg]⟩
  · exact ⟨[.logWarning "No files found for the specified parameters."],
      by simp [request_RD_report_dataframe_format, hload, hg]⟩
  · have hsucc : successRows o files = [] := by
      simp only [successRows, List.filterMap_eq_nil_iff]
      intro f hf
      rcases hall f hf with ⟨err, herr⟩
      simp [herr]
    rcases hfe : files.isEmpty with _ | _
    · refine ⟨(files.foldl (fetchStep o) ([], [])).2 ++
        [.logWarning "No DataFrames were successfully processed."], ?_⟩
      have h1 : (files.foldl (fetchStep o) ([], [])).1 = [] := by
        rw [fetchStep_fold_fst, hsucc]
        rfl
      simp [request_RD_report_dataframe_format, hload, hg, hfe, h1]
    · exact ⟨[.logWarning "No files found for the specified parameters."],
        by simp [request_RD_report_dataframe_format, hload, hg, hfe]⟩

/-- C4 witness: a concrete selection where both matching files fail. -/
theorem fetch_empty_on_failures_witness :
    ∃ effs, request_RD_report_dataframe_format
      ⟨.ok (), .ok ["RDRJ2410.dbc", "RDSP2410.dbc"],
        fun _ => .error "connection reset", true⟩ = .ok (DataFrame.empty, effs) :=
  fetch_empty_on_failures
    ⟨.ok (), .ok ["RDRJ2410.dbc", "RDSP2410.dbc"],
      fun _ => .error "connection reset", true⟩
    rfl
    (Or.inr (Or.inr ⟨["RDRJ2410.dbc", "RDSP2410.dbc"], rfl,
      fun f _ => ⟨"connection reset", rfl⟩⟩))

/-- C5: whatever subset of the matching files fails, the function returns
the concatenation, in file order, of the rows of the files that succeeded
(so a proper subset of failures is skipped, not fatal). -/
theorem fetch_concats_successes (o : FetchOracle) (files : List String)
    (hload : o.load = .ok ()) (hfiles : o.getFiles = .ok files)
    (hconcat : o.concatOk = true) :
    ∃ effs, request_RD_report_dataframe_format o =
      .ok (⟨(successRows o files).flatten⟩, effs) := by
  rcases hfe : files.isEmpty with _ | _
  · have h1 : (files.foldl (fetchStep o) ([], [])).1 = successRows o files := by
      rw [fetchStep_fold_fst]; rfl
    rcases hse : (successRows o files).isEmpty with _ | _
    · refine ⟨(files.foldl (fetchStep o) ([], [])).2 ++
        [.logInfo "Successfully combined all DataFrames."], ?_⟩
      simp [request_RD_report_dataframe_format, hload, hfiles, hfe, h1, hse, hconcat]
    · have hnil : successRows o files = [] := by
        simpa using hse
      refine ⟨(files.foldl (fetchStep o) ([], [])).2 ++
        [.logWarning "No DataFrames were successfully processed."], ?_⟩
      simp [request_RD_report_dataframe_format, hload, hfiles, hfe, h1, hse, hnil,
        DataFrame.empty]
  · have hnil : files = [] := by simpa using hfe
    have hsnil : successRows o files = [] := by simp [hnil, successRows]
    refine ⟨[.logWarning "No files found for the specified parameters."], ?_⟩
    simp [request_RD_report_dataframe_format, hload, hfiles, hfe, hsnil, DataFrame.empty]

/-- C5 witness: two matching files, one failing, one succeeding. -/
theorem fetch_concats_successes_witness :
    ∃ effs, request_RD_report_dataframe_format
      ⟨.ok (), .ok ["RDRJ2410.dbc", "RDSP2410.dbc"],
        fun f => if f = "RDSP2410.dbc" then .ok [[("UF_ZI", "330000")]]
                 else .error "connection reset", true⟩ =
      .ok (⟨(successRows
        ⟨.ok (), .ok ["RDRJ2410.dbc", "RDSP2410.dbc"],
          fun f => if f = "RDSP2410.dbc" then .ok [[("UF_ZI", "330000")]]
                   else .error "connection reset", true⟩
        ["RDRJ2410.dbc", "RDSP2410.dbc"]).flatten⟩, effs) :=
  fetch_concats_successes _ ["RDRJ2410.dbc", "RDSP2410.dbc"] rfl rfl rfl

/-- The method's trace is the body's trace, plus the outer handler's log
line when an exception escaped the body. -/
theorem insert_method_trace_eq (g : GoogleCloud) (df : DataFrame)
    (tid sj : String) (pc : List String) (proj ie : String)
    (aO : AuthOracle) (o : BQOracle) :
    (insert_dataframe_into_bigquery g df tid sj pc proj ie aO o).2.1 =
      (insertBody g df tid pc proj ie aO o).2.1 ++
        (match (insertBody g df tid pc proj ie aO o).2.2 with
         | none => []
         | some e => [Effect.logError ("Error inserting data into BigQuery: " ++ e)]) := by
  simp only [insert_dataframe_into_bigquery]
  cases h : (insertBody g df tid pc proj ie aO o).2.2 <;> simp [h]

/-- Full run of the body when every external call succeeds, the table
exists and partition columns are given: authenticate, probe, delete by
partition predicate, insert. -/
theorem insertBody_trace_ok (g : GoogleCloud) (df : DataFrame)
    (tid proj ie : String) (pc : List String) (aO : AuthOracle) (o : BQOracle) (c : Cred)
    (hap : aO.pathExists = true) (haf : aO.fromServiceAccountFile = .ok c)
    (hlen : ¬(pySplitDot tid).length < 2)
    (hclient : o.clientInit = .ok ()) (hget : o.getTable = .ok ())
    (hdel : o.runDelete = .ok ()) (hins : o.runInsert = .ok ())
    (hpc : pc ≠ []) :
    insertBody g df tid pc proj ie aO o =
      ({ g with credentials := some c },
       [Effect.logInfo "Authentication successful using service account file.",
        .logInfo ("Table \x60" ++ tid ++ "\x60 exists."),
        .logInfo ("Deleting existing data from " ++ proj ++ "." ++ tid ++
          " for partitions: " ++ deleteConditions df pc ++ "."),
        .runQuery (deleteQuery df pc proj tid),
        .logInfo ("Inserting data into " ++ proj ++ "." ++ tid ++ "."),
        .toGbq tid proj ie df.nrows df.ncols,
        .logInfo ("Inserted data into " ++ proj ++ "." ++ tid ++
          " successfully. Rows: " ++ toString df.nrows ++
          ", Columns: " ++ toString df.ncols ++ ".")],
       none) := by
  have hpc2 : pc.isEmpty = false := by
    cases pc <;> simp_all
  simp [insertBody, GoogleCloud.authenticate, insertStep, hap, haf, hlen,
    hclient, hget, hdel, hins, hpc2]

/-- Full run of the body when the table probe raises (table absent): no
delete, straight to the insert. -/
theorem insertBody_trace_noTable (g : GoogleCloud) (df : DataFrame)
    (tid proj ie : String) (pc : List String) (aO : AuthOracle) (o : BQOracle)
    (c : Cred) (e : String)
    (hap : aO.pathExists = true) (haf : aO.fromServiceAccountFile = .ok c)
    (hlen : ¬(pySplitDot tid).length < 2)
    (hclient : o.clientInit = .ok ()) (hget : o.getTable = .error e)
    (hins : o.runInsert = .ok ()) :
    insertBody g df tid pc proj ie aO o =
      ({ g with credentials := some c },
       [Effect.logInfo "Authentication successful using service account file.",
        .logInfo ("Table \x60" ++ tid ++ "\x60 does not exist. It will be created."),
        .logInfo ("Inserting data into " ++ proj ++ "." ++ tid ++ "."),
        .toGbq tid proj ie df.nrows df.ncols,
        .logInfo ("Inserted data into " ++ proj ++ "." ++ tid ++
          " successfully. Rows: " ++ toString df.nrows ++
          ", Columns: " ++ toString df.ncols ++ ".")],
       none) := by
  simp [insertBody, GoogleCloud.authenticate, insertStep, hap, haf, hlen,
    hclient, hget, hins]

/-- When the table probe raises, no branch of the body ever issues a
query. -/
theorem insertBody_no_runQuery_of_table_absent (g : GoogleCloud) (df : DataFrame)
    (tid proj ie : String) (pc : List String) (aO : AuthOracle) (o : BQOracle)
    (e q : String) (hget : o.getTable = .error e) :
    Effect.runQuery q ∉ (insertBody g df tid pc proj ie aO o).2.1 := by
  cases hap : aO.pathExists <;>
    cases haf : aO.fromServiceAccountFile <;>
    cases hai : aO.parseAndFromInfo <;>
    cases hcl : o.clientInit <;>
    cases hins : o.runInsert <;>
    by_cases hlen : (pySplitDot tid).length < 2 <;>
    simp [insertBody, GoogleCloud.authenticate, insertStep, hap, haf, hai,
      hcl, hins, hget, hlen]

/-- Full run of the body when the delete succeeds but the insert raises:
the DELETE was issued, no insert happened, the exception escapes to the
outer handler. -/
theorem insertBody_trace_failed_tail (g : GoogleCloud) (df : DataFrame)
    (tid proj ie : String) (pc : List String) (aO : AuthOracle) (o : BQOracle)
    (c : Cred) (e : String)
    (hap : aO.pathExists = true) (haf : aO.fromServiceAccountFile = .ok c)
    (hlen : ¬(pySplitDot tid).length < 2)
    (hclient : o.clientInit = .ok ()) (hget : o.getTable = .ok ())
    (hdel : o.runDelete = .ok ()) (hins : o.runInsert = .error e)
    (hpc : pc ≠ []) :
    insertBody g df tid pc proj ie aO o =
      ({ g with credentials := some c },
       [Effect.logInfo "Authentication successful using service account file.",
        .logInfo ("Table \x60" ++ tid ++ "\x60 exists."),
        .logInfo ("Deleting existing data from " ++ proj ++ "." ++ tid ++
          " for partitions: " ++ deleteConditions df pc ++ "."),
        .runQuery (deleteQuery df pc proj tid),
        .logInfo ("Inserting data into " ++ proj ++ "." ++ tid ++ ".")],
       some e) := by
  have hpc2 : pc.isEmpty = false := by
    cases pc <;> simp_all
  simp [insertBody, GoogleCloud.authenticate, insertStep, hap, haf, hlen,
    hclient, hget, hdel, hins, hpc2]

/-- C1: when the destination table exists and partition columns are given,
`insert_dataframe_into_bigquery` builds the deletion predicate as the
conjunction, over the partition columns, of `col IN (distinct values of
that column in the incoming DataFrame)`, issues the DELETE with that
predicate, and only then inserts; with partition columns `["A"]` and
incoming distinct values x, y the condition is `A IN ('x', 'y')`. -/
theorem insert_builds_conjunctive_delete_predicate
    (g : GoogleCloud) (df : DataFrame) (tid sj proj ie : String)
    (pc : List String) (aO : AuthOracle) (o : BQOracle) (c : Cred)
    (hap : aO.pathExists = true) (haf : aO.fromServiceAccountFile = .ok c)
    (hlen : ¬(pySplitDot tid).length < 2)
    (hclient : o.clientInit = .ok ()) (hget : o.getTable = .ok ())
    (hdel : o.runDelete = .ok ()) (hins : o.runInsert = .ok ())
    (hpc : pc ≠ []) :
    (insert_dataframe_into_bigquery g df tid sj pc proj ie aO o).2.1 =
      [Effect.logInfo "Authentication successful using service account file.",
       .logInfo ("Table \x60" ++ tid ++ "\x60 exists."),
       .logInfo ("Deleting existing data from " ++ proj ++ "." ++ tid ++
         " for partitions: " ++ deleteConditions df pc ++ "."),
       .runQuery (deleteQuery df pc proj tid),
       .logInfo ("Inserting data into " ++ proj ++ "." ++ tid ++ "."),
       .toGbq tid proj ie df.nrows df.ncols,
       .logInfo ("Inserted data into " ++ proj ++ "." ++ tid ++
         " successfully. Rows: " ++ toString df.nrows ++
         ", Columns: " ++ toString df.ncols ++ ".")] ∧
    deleteQuery df pc proj tid =
      "DELETE FROM \x60" ++ proj ++ "." ++ tid ++ "\x60 WHERE " ++
        String.intercalate " AND "
          (pc.map (fun col => inCondition col (uniqueVals (df.col col)))) ∧
    deleteConditions ⟨[[("A", "x")], [("A", "x")], [("A", "y")]]⟩ ["A"] =
      "A IN (\x27x\x27, \x27y\x27)" := by
  refine ⟨?_, rfl, by decide⟩
  rw [insert_method_trace_eq,
    insertBody_trace_ok g df tid proj ie pc aO o c hap haf hlen hclient hget hdel hins hpc]
  simp

/-- C1 witness: concrete all-success load with distinct values x, y. -/
theorem insert_builds_conjunctive_delete_predicate_witness :
    deleteConditions ⟨[[("A", "x")], [("A", "x")], [("A", "y")]]⟩ ["A"] =
      "A IN (\x27x\x27, \x27y\x27)" :=
  (insert_builds_conjunctive_delete_predicate ⟨none⟩
    ⟨[[("A", "x")], [("A", "x")], [("A", "y")]]⟩ "raw.tb" "sa.json" "proj" "append"
    ["A"] ⟨true, .ok "c", .ok "c"⟩ ⟨.ok (), .ok (), .ok (), .ok ()⟩ "c"
    rfl rfl (by decide) rfl rfl rfl rfl (by decide)).2.2

/-- C2: when the destination table does not exist (its probe raises), the
method performs no delete step — no branch of the run ever issues a
query — and with the other calls succeeding it proceeds directly to the
insert/create of the incoming DataFrame. -/
theorem insert_no_delete_when_table_absent
    (g : GoogleCloud) (df : DataFrame) (tid sj proj ie : String)
    (pc : List String) (aO : AuthOracle) (o : BQOracle) (e : String)
    (hget : o.getTable = .error e) :
    (∀ q, Effect.runQuery q ∉
      (insert_dataframe_into_bigquery g df tid sj pc proj ie aO o).2.1) ∧
    (∀ c, aO.pathExists = true → aO.fromServiceAccountFile = .ok c →
      ¬(pySplitDot tid).length < 2 → o.clientInit = .ok () →
      o.runInsert = .ok () →
      (insert_dataframe_into_bigquery g df tid sj pc proj ie aO o).2.1 =
        [Effect.logInfo "Authentication successful using service account file.",
         .logInfo ("Table \x60" ++ tid ++ "\x60 does not exist. It will be created."),
         .logInfo ("Inserting data into " ++ proj ++ "." ++ tid ++ "."),
         .toGbq tid proj ie df.nrows df.ncols,
         .logInfo ("Inserted data into " ++ proj ++ "." ++ tid ++
           " successfully. Rows: " ++ toString df.nrows ++
           ", Columns: " ++ toString df.ncols ++ ".")]) := by
  constructor
  · intro q
    have hb := insertBody_no_runQuery_of_table_absent g df tid proj ie pc aO o e q hget
    rw [insert_method_trace_eq]
    cases hm : (insertBody g df tid pc proj ie aO o).2.2 <;> simp_all
  · intro c hap haf hlen hcl hins
    rw [insert_method_trace_eq,
      insertBody_trace_noTable g df tid proj ie pc aO o c e hap haf hlen hcl hget hins]
    simp

/-- C2 witness: concrete load against an absent table. -/
theorem insert_no_delete_when_table_absent_witness :
    Effect.runQuery "DELETE" ∉
      (insert_dataframe_into_bigquery ⟨none⟩ ⟨[[("A", "x")]]⟩ "raw.tb" "sa.json"
        ["A"] "proj" "append" ⟨true, .ok "c", .ok "c"⟩
        ⟨.ok (), .error "NotFound: table", .ok (), .ok ()⟩).2.1 :=
  (insert_no_delete_when_table_absent ⟨none⟩ ⟨[[("A", "x")]]⟩ "raw.tb" "sa.json"
    "proj" "append" ["A"] ⟨true, .ok "c", .ok "c"⟩
    ⟨.ok (), .error "NotFound: table", .ok (), .ok ()⟩ "NotFound: table" rfl).1 "DELETE"

/-- C3: every exception escaping the body of `insert_dataframe_into_bigquery`
is caught at the top, logged, and the method returns normally (the caller
never sees an exception); there is no transactionality across
delete+insert — in a run whose delete succeeded and whose insert raised,
the DELETE was issued, nothing was inserted, and the method still returns
the same non-signal as any other run. -/
theorem insert_catches_all_and_not_transactional :
    (∀ (g : GoogleCloud) (df : DataFrame) (tid sj : String) (pc : List String)
       (proj ie : String) (aO : AuthOracle) (o : BQOracle),
       (insert_dataframe_into_bigquery g df tid sj pc proj ie aO o).2.2 =
         Except.ok ()) ∧
    (∀ (g : GoogleCloud) (df : DataFrame) (tid sj : String) (pc : List String)
       (proj ie : String) (aO : AuthOracle) (o : BQOracle) (e : String),
       (insertBody g df tid pc proj ie aO o).2.2 = some e →
       (insert_dataframe_into_bigquery g df tid sj pc proj ie aO o).2.1 =
         (insertBody g df tid pc proj ie aO o).2.1 ++
           [Effect.logError ("Error inserting data into BigQuery: " ++ e)]) ∧
    (Effect.runQuery (deleteQuery ⟨[[("A", "x")]]⟩ ["A"] "proj" "raw.tb") ∈
       (insert_dataframe_into_bigquery ⟨none⟩ ⟨[[("A", "x")]]⟩ "raw.tb" "sa.json"
         ["A"] "proj" "append" ⟨true, .ok "c", .ok "c"⟩
         ⟨.ok (), .ok (), .ok (), .error "quota exceeded"⟩).2.1 ∧
     (∀ t p i n k, Effect.toGbq t p i n k ∉
       (insert_dataframe_into_bigquery ⟨none⟩ ⟨[[("A", "x")]]⟩ "raw.tb" "sa.json"
         ["A"] "proj" "append" ⟨true, .ok "c", .ok "c"⟩
         ⟨.ok (), .ok (), .ok (), .error "quota exceeded"⟩).2.1) ∧
     (insert_dataframe_into_bigquery ⟨none⟩ ⟨[[("A", "x")]]⟩ "raw.tb" "sa.json"
       ["A"] "proj" "append" ⟨true, .ok "c", .ok "c"⟩
       ⟨.ok (), .ok (), .ok (), .error "quota exceeded"⟩).2.2 = Except.ok ()) := by
  have hb := insertBody_trace_failed_tail ⟨none⟩ ⟨[[("A", "x")]]⟩ "raw.tb" "proj"
    "append" ["A"] ⟨true, .ok "c", .ok "c"⟩
    ⟨.ok (), .ok (), .ok (), .error "quota exceeded"⟩ "c" "quota exceeded"
    rfl rfl (by decide) rfl rfl rfl rfl (by decide)
  refine ⟨?_, ?_, ?_, ?_, ?_⟩
  · intro g df tid sj pc proj ie aO o
    simp only [insert_dataframe_into_bigquery]
    cases hm : (insertBody g df tid pc proj ie aO o).2.2 <;> simp [hm]
  · intro g df tid sj pc proj ie aO o e hm
    rw [insert_method_trace_eq, hm]
  · rw [insert_method_trace_eq, hb]
    simp
  · intro t p i n k
    rw [insert_method_trace_eq, hb]
    simp
  · simp only [insert_dataframe_into_bigquery, hb]

/-- C3 witness: a concrete run never surfaces an exception. -/
theorem insert_catches_all_and_not_transactional_witness :
    (insert_dataframe_into_bigquery ⟨none⟩ ⟨[[("A", "x")]]⟩ "raw.tb" "sa.json"
      ["A"] "proj" "append" ⟨true, .ok "c", .ok "c"⟩
      ⟨.ok (), .ok (), .ok (), .ok ()⟩).2.2 = Except.ok () :=
  insert_catches_all_and_not_transactional.1 ⟨none⟩ ⟨[[("A", "x")]]⟩ "raw.tb"
    "sa.json" ["A"] "proj" "append" ⟨true, .ok "c", .ok "c"⟩
    ⟨.ok (), .ok (), .ok (), .ok ()⟩

/-- C8: in `save_local_files_in_storage`, a filename whose local path does
not exist only logs an error and the loop continues with the next
filename; a filename that exists is uploaded and then a best-effort local
deletion is attempted whose failure is logged but neither aborts the loop
nor rolls back the upload; and (with authentication and client creation
succeeding) the method's trace is exactly the loop's trace plus the
top-level handler's log when the loop raised. -/
theorem save_local_files_skip_and_best_effort :
    (∀ (o : StorageOracle) (d b fn : String) (rest : List String),
      o.pathExistsAt (pathJoin d fn) = false →
      uploadLoop o d b (fn :: rest) =
        (Effect.logError ("File " ++ pathJoin d fn ++ " does not exist. Skipping.") ::
           (uploadLoop o d b rest).1,
         (uploadLoop o d b rest).2)) ∧
    (∀ (o : StorageOracle) (d b fn : String) (rest : List String) (e : String),
      o.pathExistsAt (pathJoin d fn) = true →
      o.upload (pathJoin d fn) = .ok () →
      o.removeFile (pathJoin d fn) = .error e →
      uploadLoop o d b (fn :: rest) =
        ([Effect.uploadBlob fn,
          .logInfo ("Uploaded " ++ fn ++ " to bucket " ++ b ++ "."),
          .logError ("Failed to remove local file " ++ fn ++ " in " ++
            pathJoin d fn ++ ": " ++ e)] ++ (uploadLoop o d b rest).1,
         (uploadLoop o d b rest).2)) ∧
    (∀ (g : GoogleCloud) (fns : List String) (d b : String)
       (aO : AuthOracle) (o : StorageOracle) (c : Cred),
      aO.pathExists = true → aO.fromServiceAccountFile = .ok c →
      o.clientInit = .ok () →
      (save_local_files_in_storage g fns d b aO o).2 =
        [Effect.logInfo "Authentication successful using service account file."] ++
          (uploadLoop o d b fns).1 ++
          (match (uploadLoop o d b fns).2 with
           | none => []
           | some e => [Effect.logError ("Error uploading files: " ++ e)])) := by
  refine ⟨?_, ?_, ?_⟩
  · intro o d b fn rest h
    simp [uploadLoop, h]
  · intro o d b fn rest e h1 h2 h3
    simp [uploadLoop, h1, h2, h3]
  · intro g fns d b aO o c hap haf hcl
    cases hm : (uploadLoop o d b fns).2 <;>
      simp [save_local_files_in_storage, GoogleCloud.authenticate, hap, haf, hcl, hm]

/-- C8 witness: a batch whose first filename is missing locally still
processes the rest of the batch. -/
theorem save_local_files_skip_and_best_effort_witness :
    uploadLoop ⟨.ok (), fun _ => false, fun _ => .ok (), fun _ => .ok ()⟩
        "data" "bkt" ("f1" :: ["f2"]) =
      (Effect.logError ("File " ++ pathJoin "data" "f1" ++
          " does not exist. Skipping.") ::
         (uploadLoop ⟨.ok (), fun _ => false, fun _ => .ok (), fun _ => .ok ()⟩
           "data" "bkt" ["f2"]).1,
       (uploadLoop ⟨.ok (), fun _ => false, fun _ => .ok (), fun _ => .ok ()⟩
         "data" "bkt" ["f2"]).2) :=
  save_local_files_skip_and_best_effort.1
    ⟨.ok (), fun _ => false, fun _ => .ok (), fun _ => .ok ()⟩
    "data" "bkt" "f1" ["f2"] rfl

/-- The schema-aware method's trace is its body's trace plus the outer
handler's log line when an exception escaped the body. -/
theorem insert_schema_method_trace_eq (g : GoogleCloud) (df : SchemaDF)
    (tid sj : String) (pc : List String) (proj ie : String)
    (aO : AuthOracle) (o : BQOracle) :
    (insert_dataframe_into_bigquery_schema g df tid sj pc proj ie aO o).2.1 =
      (insertBodySchema g df tid pc proj ie aO o).2.1 ++
        (match (insertBodySchema g df tid pc proj ie aO o).2.2 with
         | none => []
         | some e => [Effect.logError ("Error inserting data into BigQuery: " ++ e)]) := by
  simp only [insert_dataframe_into_bigquery_schema]
  cases h : (insertBodySchema g df tid pc proj ie aO o).2.2 <;> simp [h]

/-- On a zero-row frame whose schema contains every partition column, the
conditions comprehension succeeds with `col IN ()` for each column. -/
theorem inConditionList_zero_rows (cols pc : List String)
    (hsub : ∀ x ∈ pc, x ∈ cols) :
    inConditionList ⟨cols, []⟩ pc = .ok (pc.map (fun col => inCondition col [])) := by
  induction pc with
  | nil => rfl
  | cons c cs ih =>
    have hc : c ∈ cols := hsub c (by simp)
    have ih2 := ih (fun x hx => hsub x (List.mem_cons_of_mem c hx))
    simp [inConditionList, SchemaDF.colSeries, hc, ih2, uniqueVals]

/-- The comprehension raises `KeyError` at the first partition column
absent from the frame's schema. -/
theorem inConditionList_missing_head (cols2 : List String) (m : String)
    (ms : List String) (rows : List Row) (hm : m ∉ cols2) :
    inConditionList ⟨cols2, rows⟩ (m :: ms) = .error ("KeyError: " ++ m) := by
  simp [inConditionList, SchemaDF.colSeries, hm]

/-- Full schema-aware body run when the conditions build and every
external call succeeds: delete with the built predicate, then insert. -/
theorem insertBodySchema_trace_ok (g : GoogleCloud) (df : SchemaDF)
    (tid proj ie conds : String) (pc : List String) (aO : AuthOracle)
    (o : BQOracle) (c : Cred)
    (hap : aO.pathExists = true) (haf : aO.fromServiceAccountFile = .ok c)
    (hlen : ¬(pySplitDot tid).length < 2)
    (hclient : o.clientInit = .ok ()) (hget : o.getTable = .ok ())
    (hdel : o.runDelete = .ok ()) (hins : o.runInsert = .ok ())
    (hpc : pc ≠ []) (hconds : deleteConditionsSchema df pc = .ok conds) :
    insertBodySchema g df tid pc proj ie aO o =
      ({ g with credentials := some c },
       [Effect.logInfo "Authentication successful using service account file.",
        .logInfo ("Table \x60" ++ tid ++ "\x60 exists."),
        .logInfo ("Deleting existing data from " ++ proj ++ "." ++ tid ++
          " for partitions: " ++ conds ++ "."),
        .runQuery (deleteQuerySchema conds proj tid),
        .logInfo ("Inserting data into " ++ proj ++ "." ++ tid ++ "."),
        .toGbq tid proj ie df.nrows df.ncols,
        .logInfo ("Inserted data into " ++ proj ++ "." ++ tid ++
          " successfully. Rows: " ++ toString df.nrows ++
          ", Columns: " ++ toString df.ncols ++ ".")],
       none) := by
  have hpc2 : pc.isEmpty = false := by
    cases pc <;> simp_all
  simp [insertBodySchema, GoogleCloud.authenticate, insertStepSchema, hap, haf,
    hlen, hclient, hget, hdel, hins, hpc2, hconds]

/-- Full schema-aware body run when building the conditions raises: the
`KeyError` escapes before any DELETE is logged or issued. -/
theorem insertBodySchema_trace_keyerr (g : GoogleCloud) (df : SchemaDF)
    (tid proj ie : String) (pc : List String) (aO : AuthOracle)
    (o : BQOracle) (c : Cred) (e : String)
    (hap : aO.pathExists = true) (haf : aO.fromServiceAccountFile = .ok c)
    (hlen : ¬(pySplitDot tid).length < 2)
    (hclient : o.clientInit = .ok ()) (hget : o.getTable = .ok ())
    (hpc : pc ≠ []) (hconds : deleteConditionsSchema df pc = .error e) :
    insertBodySchema g df tid pc proj ie aO o =
      ({ g with credentials := some c },
       [Effect.logInfo "Authentication successful using service account file.",
        .logInfo ("Table \x60" ++ tid ++ "\x60 exists.")],
       some e) := by
  have hpc2 : pc.isEmpty = false := by
    cases pc <;> simp_all
  simp [insertBodySchema, GoogleCloud.authenticate, hap, haf, hlen, hclient,
    hget, hpc2, hconds]

/-- C10 counterexample: at the zero-row, column-less frame the fetcher
produces on an empty outcome (with only `insert_loading` added by the
orchestrator), an existing table and the pipeline's partition columns,
evaluating `df[col]` raises `KeyError` on the first partition column: no
`col IN ()` condition is built, no DELETE is issued, the insert is
skipped, and the top-level handler logs the error — contrary to the
claim. -/
theorem insert_empty_frame_keyerror_skips_delete :
    deleteConditionsSchema ⟨["insert_loading"], []⟩ ["UF_ZI", "ANO_CMPT", "MES_CMPT"] =
      .error ("KeyError: " ++ "UF_ZI") ∧
    (insert_dataframe_into_bigquery_schema ⟨none⟩ ⟨["insert_loading"], []⟩
        "raw.tb_sih_rd" "sa.json" ["UF_ZI", "ANO_CMPT", "MES_CMPT"]
        "datasus-prod" "append" ⟨true, .ok "c", .ok "c"⟩
        ⟨.ok (), .ok (), .ok (), .ok ()⟩).2.1 =
      [Effect.logInfo "Authentication successful using service account file.",
       .logInfo ("Table \x60" ++ "raw.tb_sih_rd" ++ "\x60 exists."),
       .logError ("Error inserting data into BigQuery: " ++ ("KeyError: " ++ "UF_ZI"))] ∧
    (insert_dataframe_into_bigquery_schema ⟨none⟩ ⟨["insert_loading"], []⟩
        "raw.tb_sih_rd" "sa.json" ["UF_ZI", "ANO_CMPT", "MES_CMPT"]
        "datasus-prod" "append" ⟨true, .ok "c", .ok "c"⟩
        ⟨.ok (), .ok (), .ok (), .ok ()⟩).2.2 = Except.ok () := by
  refine ⟨rfl, by decide, rfl⟩

/-- C10 amended: with a zero-row DataFrame, an existing table and
non-empty partition columns, the per-column condition is `col IN ()` with
an empty value list and the DELETE is still issued — provided every
partition column is in the frame's schema; when some partition column is
absent (as in the fetcher's documented empty outcome), building the
conditions raises `KeyError` instead, the top-level handler catches it,
and neither a DELETE nor an insert is performed. -/
theorem insert_zero_rows_schema_dependent
    (g : GoogleCloud) (cols pc : List String) (tid sj proj ie : String)
    (aO : AuthOracle) (o : BQOracle) (c : Cred)
    (hap : aO.pathExists = true) (haf : aO.fromServiceAccountFile = .ok c)
    (hlen : ¬(pySplitDot tid).length < 2)
    (hclient : o.clientInit = .ok ()) (hget : o.getTable = .ok ())
    (hdel : o.runDelete = .ok ()) (hins : o.runInsert = .ok ())
    (hpc : pc ≠ []) (hsub : ∀ x ∈ pc, x ∈ cols) :
    deleteConditionsSchema ⟨cols, []⟩ pc =
      .ok (String.intercalate " AND " (pc.map (fun col => inCondition col []))) ∧
    Effect.runQuery (deleteQuerySchema
        (String.intercalate " AND " (pc.map (fun col => inCondition col []))) proj tid) ∈
      (insert_dataframe_into_bigquery_schema g ⟨cols, []⟩ tid sj pc proj ie aO o).2.1 ∧
    deleteConditionsSchema ⟨["A"], []⟩ ["A"] = .ok "A IN ()" ∧
    (∀ cols2 m ms, m ∉ cols2 →
      deleteConditionsSchema ⟨cols2, []⟩ (m :: ms) = .error ("KeyError: " ++ m) ∧
      (insert_dataframe_into_bigquery_schema g ⟨cols2, []⟩ tid sj (m :: ms)
          proj ie aO o).2.1 =
        [Effect.logInfo "Authentication successful using service account file.",
         .logInfo ("Table \x60" ++ tid ++ "\x60 exists."),
         .logError ("Error inserting data into BigQuery: " ++ ("KeyError: " ++ m))]) := by
  have hdc : deleteConditionsSchema ⟨cols, []⟩ pc =
      .ok (String.intercalate " AND " (pc.map (fun col => inCondition col []))) := by
    simp [deleteConditionsSchema, inConditionList_zero_rows cols pc hsub]
  refine ⟨hdc, ?_, rfl, ?_⟩
  · rw [insert_schema_method_trace_eq,
      insertBodySchema_trace_ok g ⟨cols, []⟩ tid proj ie _ pc aO o c hap haf hlen
        hclient hget hdel hins hpc hdc]
    simp
  · intro cols2 m ms hm
    have hkey : deleteConditionsSchema ⟨cols2, []⟩ (m :: ms) =
        .error ("KeyError: " ++ m) := by
      simp [deleteConditionsSchema, inConditionList_missing_head cols2 m ms [] hm]
    refine ⟨hkey, ?_⟩
    rw [insert_schema_method_trace_eq,
      insertBodySchema_trace_keyerr g ⟨cols2, []⟩ tid proj ie (m :: ms) aO o c
        ("KeyError: " ++ m) hap haf hlen hclient hget (by simp) hkey]
    simp

/-- C10 witness: concrete zero-row load whose schema does contain the
partition column. -/
theorem insert_zero_rows_schema_dependent_witness :
    deleteConditionsSchema ⟨["UF_ZI"], []⟩ ["UF_ZI"] =
      .ok (String.intercalate " AND " (["UF_ZI"].map (fun col => inCondition col []))) :=
  (insert_zero_rows_schema_dependent ⟨none⟩ ["UF_ZI"] ["UF_ZI"] "raw.tb" "sa.json"
    "proj" "append" ⟨true, .ok "c", .ok "c"⟩ ⟨.ok (), .ok (), .ok (), .ok ()⟩ "c"
    rfl rfl (by decide) rfl rfl rfl rfl (by decide) (by decide)).1

end DatasusGcp
